import Mathlib

/-!
Shallow embedding of the recommendation engine of a movie/TV catalog backend.

Source of authority: src/services/recommendationService.js
(getRecommendationsForProfile), src/controllers/recommendationController.js
(getRecommendations), src/models/Content.js, src/models/Review.js,
src/models/Profile.js (myList).

Modelling conventions:
- JavaScript numbers are modelled as rationals (ℚ); additions such as
  repeated `+ 0.2` and divisions such as `popularity / 20` are exact here.
- Mongo document ids are modelled as naturals.
- `Review.find({profile}).populate(content)` is modelled by the list of the
  profile reviews already joined with their content documents.
- `Content.find()` is modelled by the corpus list in stored order;
  `.sort({popularity: -1})` sorts descending by popularity.  MongoDB does not
  specify the relative order of equal keys; we model the stable order
  (documents of equal popularity keep their stored order).
- Failure of the two external reads is modelled by two flags on the database
  state; a failing read raises, which the embedding propagates in Except.
- The npm package `natural` supplies TfIdf.  Its per-document measure is kept
  abstract as a parameter `sim : List String → String → Nat → ℚ`
  (document corpus, query text, document index).  The source calls
  `tfidf.tfidfs(docText, index)`: in `natural`, tfidfs(terms, callback)
  computes the measure for every document and, when `callback` is truthy,
  invokes it; a number ≥ 1 passed there is truthy and not callable, so the
  call raises TypeError.  For index 0 the callback is falsy and the full
  array of measures is returned.  This behaviour is modelled faithfully.
-/

namespace NetflixRec

/-- A catalog item, from the Content schema (src/models/Content.js): the
fields the engine reads.  `genres` and `keywords` are (id, name) tag lists;
the keywords field may be absent, hence Option. -/
structure Content where
  id : Nat
  title : String
  overview : String
  ctype : String
  genres : List (Nat × String)
  keywords : Option (List (Nat × String))
  popularity : ℚ
deriving DecidableEq

/-- A review of the profile, already joined with its content document
(src/models/Review.js; the engine reads only rating and content). -/
structure Review where
  content : Content
  rating : ℚ
deriving DecidableEq

/-- The reachable database state seen by one call: the profile reviews
(joined), the profile watchlist (Profile.myList, a list of content ids),
the content corpus in stored order, and failure flags for the two reads. -/
structure Db where
  reviews : List Review
  myList : List Nat
  corpus : List Content
  reviewsFail : Bool
  corpusFail : Bool
deriving DecidableEq

/-- A JavaScript exception reaching the try/catch of the service. -/
inductive JsErr
  | dbError
  | typeError
deriving DecidableEq

/-- The abstract per-document TF-IDF measure of the `natural` package:
arguments are the document corpus, the query text and the document index. -/
def Sim : Type := List String → String → Nat → ℚ

/-- Model of the JS Map increment `m.set(k, (m.get(k) || 0) + 1)`:
insertion order is preserved, an existing key is updated in place. -/
def mapInc : List (Nat × Nat) → Nat → List (Nat × Nat)
  | [], k => [(k, 1)]
  | (k₀, v) :: rest, k =>
    if k₀ = k then (k₀, v + 1) :: rest else (k₀, v) :: mapInc rest k

/-- Model of `m.get(k) || 0`. -/
def mapGet : List (Nat × Nat) → Nat → Nat
  | [], _ => 0
  | (k₀, v) :: rest, k => if k₀ = k then v else mapGet rest k

/-- One step of the genre-counting loop over likedContent
(recommendationService.js lines 37-42). -/
def bumpGenres (m : List (Nat × Nat)) (c : Content) : List (Nat × Nat) :=
  c.genres.foldl (fun m g => mapInc m g.1) m

/-- One step of the keyword-counting loop (lines 44-50); contents with no
keywords field are skipped by the `if (content.keywords)` guard. -/
def bumpKeywords (m : List (Nat × Nat)) (c : Content) : List (Nat × Nat) :=
  match c.keywords with
  | some ks => ks.foldl (fun m k => mapInc m k.1) m
  | none => m

/-- The likedGenres map built from the liked contents (lines 33-42). -/
def buildGenreMap (cs : List Content) : List (Nat × Nat) :=
  cs.foldl bumpGenres []

/-- The likedKeywords map built from the liked contents (lines 33-51). -/
def buildKeywordMap (cs : List Content) : List (Nat × Nat) :=
  cs.foldl bumpKeywords []

/-- Model of `[...m.entries()].sort((a, b) => b[1] - a[1]).map(e => e[0])`
(lines 53-60): stable sort of the entries, descending by count, then keep
the ids.  JS Array.prototype.sort is stable, so ties keep insertion order. -/
def sortedIds (m : List (Nat × Nat)) : List Nat :=
  (List.insertionSort (fun a b : Nat × Nat => b.2 ≤ a.2) m).map Prod.fst

/-- The document text of one content item (lines 71-88 and 98-111):
title, overview, genre names, then keyword names when present. -/
def docTextOf (c : Content) : String :=
  let t := c.title ++ " " ++ c.overview
  let t := c.genres.foldl (fun s g => s ++ " " ++ g.2) t
  match c.keywords with
  | some ks => ks.foldl (fun s k => s ++ " " ++ k.2) t
  | none => t

/-- Model of `tfidf.tfidfs(docText, cb)` from the `natural` package: it
computes the measure of every document and invokes `cb` when truthy.  The
source passes the liked-item index as `cb`: index 0 is falsy (no call, array
returned); an index ≥ 1 is truthy and not a function, so the first attempted
invocation raises TypeError. -/
def jsTfidfs (sim : Sim) (docs : List String) (query : String) (cb : Nat) :
    Except JsErr (List ℚ) :=
  if cb ≠ 0 ∧ docs.length ≠ 0 then .error .typeError
  else .ok ((List.range docs.length).map (sim docs query))

/-- Model of `totalSimilarity += similarity` where similarity is the ARRAY
returned by tfidfs (line 119).  JS coerces the array to a string and
concatenates; for the only case that survives to a result (total 0, a
singleton array of a nonnegative finite number) parsing the concatenation
back gives that number.  The other cases produce NaN or garbage in JS; they
are either discarded by the TypeError raised at the next loop index or ruled
out by the nonnegativity of the natural measures, and are modelled as 0. -/
def jsPlusArray (total : ℚ) (arr : List ℚ) : ℚ :=
  match arr with
  | [x] => if total = 0 ∧ 0 ≤ x then x else 0
  | _ => 0

/-- Model of `Math.max(maxSimilarity, similarity)` (line 120) where
similarity is the array returned by tfidfs: a singleton array coerces to its
number; other shapes give NaN in JS, modelled as 0 (discarded, as above). -/
def jsMaxArray (m : ℚ) (arr : List ℚ) : ℚ :=
  match arr with
  | [x] => max m x
  | _ => 0

/-- The accumulation loop over likedContent indices (lines 114-121), from
index `i` with `n` iterations left, threading (totalSimilarity,
maxSimilarity); the tfidfs call can raise. -/
def simLoopFrom (sim : Sim) (docs : List String) (query : String) :
    Nat → Nat → ℚ × ℚ → Except JsErr (ℚ × ℚ)
  | _, 0, st => .ok st
  | i, n + 1, st =>
    match jsTfidfs sim docs query i with
    | .error e => .error e
    | .ok arr =>
      simLoopFrom sim docs query (i + 1) n
        (jsPlusArray st.1 arr, jsMaxArray st.2 arr)

/-- The whole similarity loop of one candidate: `count` is
likedContent.length (equal to the number of documents added). -/
def simLoop (sim : Sim) (docs : List String) (query : String) (count : Nat) :
    Except JsErr (ℚ × ℚ) :=
  simLoopFrom sim docs query 0 count (0, 0)

/-- Genre bonus (lines 127-133): +0.2 per genre tag whose id is among the
first three sorted genre ids. -/
def genreBonusOf (sortedGenres : List Nat) (c : Content) : ℚ :=
  c.genres.foldl (fun b g => if g.1 ∈ sortedGenres.take 3 then b + 2/10 else b) 0

/-- Keyword bonus (lines 135-143): +0.1 per keyword tag whose id is among
the first five sorted keyword ids; 0 when the keywords field is absent. -/
def keywordBonusOf (sortedKeywords : List Nat) (c : Content) : ℚ :=
  match c.keywords with
  | some ks =>
    ks.foldl (fun b k => if k.1 ∈ sortedKeywords.take 5 then b + 1/10 else b) 0
  | none => 0

/-- Scoring of one candidate (lines 97-154): similarity loop, average,
genre bonus, keyword bonus, popularity / 20, summed. -/
def scoreOf (sim : Sim) (docs : List String) (likedCount : Nat)
    (sg sk : List Nat) (c : Content) : Except JsErr (Content × ℚ) :=
  match simLoop sim docs (docTextOf c) likedCount with
  | .error e => .error e
  | .ok st =>
    let avg := if 0 < likedCount then st.1 / (likedCount : ℚ) else 0
    .ok (c, avg + st.2 + genreBonusOf sg c + keywordBonusOf sk c + c.popularity / 20)

/-- Model of `allContent.map(content => ...)` (lines 97-155): the callback
can raise, which aborts the whole map. -/
def mapScore (sim : Sim) (docs : List String) (likedCount : Nat)
    (sg sk : List Nat) : List Content → Except JsErr (List (Content × ℚ))
  | [] => .ok []
  | c :: rest =>
    match scoreOf sim docs likedCount sg sk c with
    | .error e => .error e
    | .ok p =>
      match mapScore sim docs likedCount sg sk rest with
      | .error e => .error e
      | .ok ps => .ok (p :: ps)

/-- Model of `Content.find().sort({popularity: -1})`: stable sort of the
corpus, descending by popularity (ties keep stored order, see header). -/
def popSort (cs : List Content) : List Content :=
  List.insertionSort (fun a b : Content => b.popularity ≤ a.popularity) cs

/-- Model of `scoredContent.sort((a, b) => b.score - a.score)` (lines
158-159): stable sort descending by score. -/
def scoreSort (ps : List (Content × ℚ)) : List (Content × ℚ) :=
  List.insertionSort (fun a b : Content × ℚ => b.2 ≤ a.2) ps

/-- The liked contents of a review list (lines 22-24): reviews with rating
at least 3, mapped to their content. -/
def likedOf (reviews : List Review) : List Content :=
  (reviews.filter (fun r => decide ((3 : ℚ) ≤ r.rating))).map (fun r => r.content)

/-- The body of getRecommendationsForProfile inside the try block
(recommendationService.js lines 9-163), before the catch. -/
def recommendBody (sim : Sim) (db : Db) (limit : Nat) :
    Except JsErr (List Content) :=
  if db.reviewsFail then .error .dbError
  else
    let profileReviews := db.reviews
    if profileReviews.length = 0 then
      if db.corpusFail then .error .dbError
      else .ok ((popSort db.corpus).take limit)
    else
      let likedContent := likedOf profileReviews
      if likedContent.length = 0 then
        if db.corpusFail then .error .dbError
        else .ok ((popSort db.corpus).take limit)
      else
        let sortedGenres := sortedIds (buildGenreMap likedContent)
        let sortedKeywords := sortedIds (buildKeywordMap likedContent)
        let reviewedContentIds := profileReviews.map (fun r => r.content.id)
        let docs := likedContent.map docTextOf
        if db.corpusFail then .error .dbError
        else
          let allContent :=
            db.corpus.filter (fun c => decide (c.id ∉ reviewedContentIds))
          match mapScore sim docs likedContent.length sortedGenres
              sortedKeywords allContent with
          | .error e => .error e
          | .ok scored => .ok (((scoreSort scored).take limit).map Prod.fst)

/-- getRecommendationsForProfile (lines 8-168): the try/catch wraps every
exception into a fresh Error with a fixed message and rethrows it. -/
def getRecommendationsForProfile (sim : Sim) (db : Db) (limit : Nat) :
    Except String (List Content) :=
  match recommendBody sim db limit with
  | .ok recs => .ok recs
  | .error _ => .error "Failed to generate recommendations"

/-- The HTTP response of the recommendation controller: status code,
success flag, data list. -/
structure HttpResponse where
  status : Nat
  success : Bool
  data : List Content
deriving DecidableEq

/-- getRecommendations (src/controllers/recommendationController.js):
404 when the profile lookup fails, 500 with no data when the service
throws, 200 with the list otherwise. -/
def getRecommendations (sim : Sim) (db : Db) (profileFound : Bool)
    (limit : Nat) : HttpResponse :=
  if profileFound = false then ⟨404, false, []⟩
  else
    match getRecommendationsForProfile sim db limit with
    | .ok recs => ⟨200, true, recs⟩
    | .error _ => ⟨500, false, []⟩

/-- Modelled from the spec (section 4.2, cold-start branch), for comparison
with the code: the corpus sorted descending by popularity with ties broken
by content identifier ascending, truncated to limit. -/
def specColdStart (corpus : List Content) (limit : Nat) : List Content :=
  (List.insertionSort
    (fun a b : Content =>
      b.popularity < a.popularity ∨
        (a.popularity = b.popularity ∧ a.id ≤ b.id)) corpus).take limit

/-- The measure that is identically zero; used to instantiate the abstract
TF-IDF parameter on concrete inputs. -/
def simZero : Sim := fun _ _ _ => 0

instance exceptDecEq {ε α : Type} [DecidableEq ε] [DecidableEq α] :
    DecidableEq (Except ε α) := fun x y =>
  match x, y with
  | .ok a, .ok b =>
    if h : a = b then .isTrue (by rw [h]) else .isFalse (by simp [h])
  | .error e, .error f =>
    if h : e = f then .isTrue (by rw [h]) else .isFalse (by simp [h])
  | .ok _, .error _ => .isFalse (by simp)
  | .error _, .ok _ => .isFalse (by simp)

/-! ### Helper lemmas about the JS Map model -/

theorem mapGet_mapInc (m : List (Nat × Nat)) (x g : Nat) :
    mapGet (mapInc m x) g = mapGet m g + if x = g then 1 else 0 := by
  induction m with
  | nil => by_cases h : x = g <;> simp [mapInc, mapGet, h]
  | cons hd tl ih =>
    obtain ⟨k₀, v⟩ := hd
    by_cases h1 : k₀ = x
    · subst h1
      by_cases h2 : k₀ = g <;> simp [mapInc, mapGet, h2]
    · by_cases h2 : k₀ = g
      · have h3 : ¬ g = x := fun hh => h1 (h2.trans hh)
        have h4 : ¬ x = g := fun hh => h3 hh.symm
        simp [mapInc, mapGet, h1, h2, h3, h4]
      · simp [mapInc, mapGet, h1, h2, ih]

theorem mapGet_foldl_mapInc (ids : List Nat) (m : List (Nat × Nat)) (g : Nat) :
    mapGet (ids.foldl mapInc m) g = mapGet m g + List.count g ids := by
  induction ids generalizing m with
  | nil => simp
  | cons i ids ih =>
    simp only [List.foldl_cons, ih, mapGet_mapInc, List.count_cons, beq_iff_eq]
    by_cases h : i = g
    · simp [h]
      omega
    · simp [h]

theorem bumpGenres_get (m : List (Nat × Nat)) (c : Content) (g : Nat) :
    mapGet (bumpGenres m c) g = mapGet m g + List.count g (c.genres.map Prod.fst) := by
  rw [bumpGenres, ← mapGet_foldl_mapInc (c.genres.map Prod.fst) m g, List.foldl_map]

theorem bumpKeywords_get (m : List (Nat × Nat)) (c : Content) (k : Nat) :
    mapGet (bumpKeywords m c) k =
      mapGet m k + List.count k ((c.keywords.getD []).map Prod.fst) := by
  match h : c.keywords with
  | none => simp [bumpKeywords, h]
  | some ks =>
    rw [bumpKeywords, h]
    simp only [Option.getD_some, h]
    rw [← mapGet_foldl_mapInc (ks.map Prod.fst) m k, List.foldl_map]

theorem foldl_bumpGenres_get (cs : List Content) (m : List (Nat × Nat)) (g : Nat) :
    mapGet (cs.foldl bumpGenres m) g =
      mapGet m g + (cs.map (fun c => List.count g (c.genres.map Prod.fst))).sum := by
  induction cs generalizing m with
  | nil => simp
  | cons c cs ih => simp only [List.foldl_cons, ih, bumpGenres_get, List.map_cons,
      List.sum_cons]; omega

theorem foldl_bumpKeywords_get (cs : List Content) (m : List (Nat × Nat)) (k : Nat) :
    mapGet (cs.foldl bumpKeywords m) k =
      mapGet m k + (cs.map (fun c => List.count k ((c.keywords.getD []).map Prod.fst))).sum := by
  induction cs generalizing m with
  | nil => simp
  | cons c cs ih => simp only [List.foldl_cons, ih, bumpKeywords_get, List.map_cons,
      List.sum_cons]; omega

theorem sum_counts_eq_filter_length (f : Content → List Nat) (g : Nat) :
    ∀ cs : List Content, (∀ c ∈ cs, (f c).Nodup) →
      (cs.map (fun c => List.count g (f c))).sum =
        (cs.filter (fun c => decide (g ∈ f c))).length := by
  intro cs
  induction cs with
  | nil => simp
  | cons c cs ih =>
    intro h
    by_cases hm : g ∈ f c
    · simp [List.filter_cons, hm, List.count_eq_one_of_mem (h c (by simp)) hm,
        ih (fun c hc => h c (by simp [hc]))]
      omega
    · simp [List.filter_cons, hm, List.count_eq_zero_of_not_mem hm,
        ih (fun c hc => h c (by simp [hc]))]

theorem buildGenreMap_get (cs : List Content) (g : Nat)
    (h : ∀ c ∈ cs, (c.genres.map Prod.fst).Nodup) :
    mapGet (buildGenreMap cs) g =
      (cs.filter (fun c => decide (g ∈ c.genres.map Prod.fst))).length := by
  rw [buildGenreMap, foldl_bumpGenres_get,
    sum_counts_eq_filter_length (fun c => c.genres.map Prod.fst) g cs h]
  simp [mapGet]

theorem buildKeywordMap_get (cs : List Content) (k : Nat)
    (h : ∀ c ∈ cs, ((c.keywords.getD []).map Prod.fst).Nodup) :
    mapGet (buildKeywordMap cs) k =
      (cs.filter (fun c => decide (k ∈ (c.keywords.getD []).map Prod.fst))).length := by
  rw [buildKeywordMap, foldl_bumpKeywords_get,
    sum_counts_eq_filter_length (fun c => (c.keywords.getD []).map Prod.fst) k cs h]
  simp [mapGet]

/-! ### Helper lemmas about the scoring pass -/

theorem scoreOf_ok_fst (sim : Sim) (docs : List String) (n : Nat)
    (sg sk : List Nat) (c : Content) (p : Content × ℚ)
    (h : scoreOf sim docs n sg sk c = .ok p) : p.1 = c := by
  rw [scoreOf] at h
  match hs : simLoop sim docs (docTextOf c) n with
  | .error e => rw [hs] at h; exact absurd h (by simp)
  | .ok st => rw [hs] at h; simp only [Except.ok.injEq] at h; rw [← h]

theorem mapScore_ok_map (sim : Sim) (docs : List String) (n : Nat)
    (sg sk : List Nat) :
    ∀ (l : List Content) (ps : List (Content × ℚ)),
      mapScore sim docs n sg sk l = .ok ps → ps.map Prod.fst = l := by
  intro l
  induction l with
  | nil => intro ps h; rw [mapScore] at h; simp only [Except.ok.injEq] at h
           rw [← h]; rfl
  | cons c rest ih =>
    intro ps h
    rw [mapScore] at h
    match hs : scoreOf sim docs n sg sk c with
    | .error e => rw [hs] at h; exact absurd h (by simp)
    | .ok p =>
      rw [hs] at h
      match hm : mapScore sim docs n sg sk rest with
      | .error e => rw [hm] at h; exact absurd h (by simp)
      | .ok ps' =>
        rw [hm] at h
        simp only [Except.ok.injEq] at h
        rw [← h]
        simp [scoreOf_ok_fst sim docs n sg sk c p hs, ih ps' hm]

theorem scoreOf_one (sim : Sim) (docs : List String) (sg sk : List Nat)
    (c : Content) :
    scoreOf sim docs 1 sg sk c =
      .ok (c, jsPlusArray 0 ((List.range docs.length).map (sim docs (docTextOf c))) / ((1 : Nat) : ℚ) +
        jsMaxArray 0 ((List.range docs.length).map (sim docs (docTextOf c))) +
        genreBonusOf sg c + keywordBonusOf sk c + c.popularity / 20) := rfl

theorem mapScore_one_ok (sim : Sim) (docs : List String) (sg sk : List Nat) :
    ∀ l : List Content, ∃ ps, mapScore sim docs 1 sg sk l = .ok ps := by
  intro l
  induction l with
  | nil => exact ⟨[], rfl⟩
  | cons c rest ih =>
    obtain ⟨ps, hps⟩ := ih
    exact ⟨(c, jsPlusArray 0 ((List.range docs.length).map (sim docs (docTextOf c))) / ((1 : Nat) : ℚ) +
      jsMaxArray 0 ((List.range docs.length).map (sim docs (docTextOf c))) +
      genreBonusOf sg c + keywordBonusOf sk c + c.popularity / 20) :: ps, by
      rw [mapScore, scoreOf_one, hps]⟩

theorem mem_scoreSort (ps : List (Content × ℚ)) (p : Content × ℚ) :
    p ∈ scoreSort ps ↔ p ∈ ps :=
  (List.perm_insertionSort _ ps).mem_iff

theorem length_scoreSort (ps : List (Content × ℚ)) :
    (scoreSort ps).length = ps.length :=
  (List.perm_insertionSort _ ps).length_eq

theorem mem_popSort (cs : List Content) (c : Content) :
    c ∈ popSort cs ↔ c ∈ cs :=
  (List.perm_insertionSort _ cs).mem_iff

theorem length_popSort (cs : List Content) :
    (popSort cs).length = cs.length :=
  (List.perm_insertionSort _ cs).length_eq

/-- In the scored branch (reviews present, at least one rated ≥ 3, reads
succeed), a successful result is the score-sorted, truncated projection of
the scoring pass over the corpus items not reviewed by the profile. -/
theorem scored_branch_shape (sim : Sim) (db : Db) (limit : Nat)
    (l : List Content)
    (h1 : db.reviewsFail = false) (h2 : db.corpusFail = false)
    (h3 : likedOf db.reviews ≠ [])
    (h4 : getRecommendationsForProfile sim db limit = .ok l) :
    ∃ scored,
      mapScore sim ((likedOf db.reviews).map docTextOf)
        (likedOf db.reviews).length
        (sortedIds (buildGenreMap (likedOf db.reviews)))
        (sortedIds (buildKeywordMap (likedOf db.reviews)))
        (db.corpus.filter
          (fun c => decide (c.id ∉ db.reviews.map (fun r => r.content.id)))) =
        .ok scored ∧
      l = ((scoreSort scored).take limit).map Prod.fst := by
  have hrev : ¬ db.reviews.length = 0 := by
    intro h0
    exact h3 (by simp [likedOf, List.length_eq_zero.mp h0])
  have hl : ¬ (likedOf db.reviews).length = 0 := by
    simpa [List.length_eq_zero] using h3
  match hb : recommendBody sim db limit with
  | .error e =>
    rw [getRecommendationsForProfile, hb] at h4
    exact absurd h4 (by simp)
  | .ok recs =>
    rw [getRecommendationsForProfile, hb] at h4
    simp only [Except.ok.injEq] at h4
    subst h4
    rw [recommendBody] at hb
    simp only [h1, h2, hrev, Bool.false_eq_true, if_false, ite_false] at hb
    match hm : mapScore sim ((likedOf db.reviews).map docTextOf)
        (likedOf db.reviews).length
        (sortedIds (buildGenreMap (likedOf db.reviews)))
        (sortedIds (buildKeywordMap (likedOf db.reviews)))
        (db.corpus.filter
          (fun c => decide (c.id ∉ db.reviews.map (fun r => r.content.id)))) with
    | .error e =>
      rw [if_neg hl, hm] at hb
      exact absurd hb (by simp)
    | .ok scored =>
      rw [if_neg hl, hm] at hb
      simp only [Except.ok.injEq] at hb
      exact ⟨scored, hm, hb.symm⟩

/-- In the cold-start branch (no review at all, reads succeed), the result
is the popularity-sorted corpus truncated to limit. -/
theorem cold_branch_shape (sim : Sim) (db : Db) (limit : Nat)
    (h1 : db.reviewsFail = false) (h2 : db.corpusFail = false)
    (h3 : db.reviews = []) :
    getRecommendationsForProfile sim db limit =
      .ok ((popSort db.corpus).take limit) := by
  simp [getRecommendationsForProfile, recommendBody, h1, h2, h3]

/-! ### Concrete inputs used by counterexamples and witnesses -/

/-- The liked item of the concrete scenario in the spec (section 8):
genres Action (28) and Drama (18), keyword heist (1). -/
def contentL : Content :=
  ⟨10, "L", "ov", "movie", [(28, "Action"), (18, "Drama")], some [(1, "heist")], 100⟩

/-- Scenario item A: genre Action, keyword heist, popularity 50. -/
def contentA : Content :=
  ⟨1, "A", "ov", "movie", [(28, "Action")], some [(1, "heist")], 50⟩

/-- Scenario item B: genre Comedy (35), no favorite genre, popularity 900. -/
def contentB : Content :=
  ⟨2, "B", "ov", "movie", [(35, "Comedy")], some [], 900⟩

/-- Scenario item C: genre Drama, popularity 10. -/
def contentC : Content :=
  ⟨3, "C", "ov", "movie", [(18, "Drama")], none, 10⟩

/-- The spec scenario state: one 5-star review of L, empty watchlist,
corpus L, A, B, C, reads succeed. -/
def gateDb : Db :=
  ⟨[⟨contentL, 5⟩], [], [contentL, contentA, contentB, contentC], false, false⟩

/-- A state whose only review has rating 2 and whose corpus is exactly the
reviewed item. -/
def lowDb : Db := ⟨[⟨contentA, 2⟩], [], [contentA], false, false⟩

/-- A state with one liked review of L and one unseen candidate A. -/
def oneCandDb : Db := ⟨[⟨contentL, 5⟩], [], [contentL, contentA], false, false⟩

/-- A state with no review where the corpus read fails. -/
def corpusFailDb : Db := ⟨[], [], [contentA], false, true⟩

/-- A watchlisted item: genre Horror (27), keyword ghost (9). -/
def contentW : Content :=
  ⟨7, "W", "ov", "movie", [(27, "Horror")], some [(9, "ghost")], 3⟩

/-- A state with one liked review of L and W on the watchlist and in the
corpus. -/
def watchDb : Db := ⟨[⟨contentL, 5⟩], [7], [contentL, contentW], false, false⟩

/-- A state with two liked reviews (L and A) and unseen candidates. -/
def twoLikedDb : Db :=
  ⟨[⟨contentL, 5⟩, ⟨contentA, 4⟩], [], [contentL, contentA, contentB, contentC],
    false, false⟩

/-- A fresh content of a genre (878) absent from the baseline profile. -/
def contentZ : Content := ⟨5, "Z", "ov", "movie", [(878, "SciFi")], none, 1⟩

/-- The baseline state of the monotonicity claim: one 5-star review of L,
candidate A. -/
def monoBaseDb : Db := ⟨[⟨contentL, 5⟩], [], [contentL, contentA], false, false⟩

/-- The baseline state plus one 5-star review of Z (new genre 878). -/
def monoAddDb : Db :=
  ⟨[⟨contentL, 5⟩, ⟨contentZ, 5⟩], [], [contentL, contentA, contentZ], false, false⟩

/-- Two items of equal popularity stored in descending identifier order. -/
def tieY : Content := ⟨2, "Y", "ov", "movie", [], none, 5⟩

/-- See tieY. -/
def tieX : Content := ⟨1, "X", "ov", "movie", [], none, 5⟩

/-- A state with no review and an equal-popularity corpus stored in
descending identifier order. -/
def tieDb : Db := ⟨[], [], [tieY, tieX], false, false⟩

/-- A liked item carrying no keywords field. -/
def contentNoKwL : Content := ⟨20, "NL", "ov", "movie", [(28, "Action")], none, 30⟩

/-- An unseen candidate carrying no keywords field. -/
def contentNoKwC : Content := ⟨21, "NC", "ov", "movie", [(28, "Action")], none, 8⟩

/-- A state with one liked keywordless review and one keywordless
candidate. -/
def noKwDb : Db := ⟨[⟨contentNoKwL, 4⟩], [], [contentNoKwL, contentNoKwC], false, false⟩

/-- A state with two liked reviews whose contents both lack the keywords
field, plus an unseen keywordless candidate. -/
def noKw2Db : Db :=
  ⟨[⟨contentNoKwL, 4⟩, ⟨contentZ, 5⟩], [],
    [contentNoKwL, contentZ, contentNoKwC], false, false⟩

/-! ### C1 — exclusion invariant -/

/-- C1, counterexample: the popularity fallback taken when the profile has
reviews but none rated ≥ 3 does not exclude reviewed items: with a single
rating-2 review of A and corpus A, the engine returns A itself, although
the identifier of A appears in the profile reviews. -/
theorem c1_fallback_returns_reviewed_counterexample :
    getRecommendationsForProfile simZero lowDb 10 = .ok [contentA] ∧
    contentA.id ∈ lowDb.reviews.map (fun r => r.content.id) := by
  constructor <;> decide

/-- C1, amended: only the scored branch excludes, and it excludes exactly
the reviewed content identifiers; the two popularity fallbacks return
popular corpus items with no exclusion at all, and the watchlist is never
excluded.  Proved part: in the scored branch, no reviewed content
identifier appears in the returned list. -/
theorem c1_scored_branch_excludes_reviewed (sim : Sim) (db : Db)
    (limit : Nat) (l : List Content) (c : Content)
    (h1 : db.reviewsFail = false) (h2 : db.corpusFail = false)
    (h3 : likedOf db.reviews ≠ [])
    (h4 : getRecommendationsForProfile sim db limit = .ok l)
    (h5 : c ∈ l) :
    c.id ∉ db.reviews.map (fun r => r.content.id) := by
  obtain ⟨scored, hm, hl⟩ := scored_branch_shape sim db limit l h1 h2 h3 h4
  subst hl
  obtain ⟨p, hp, hpc⟩ := List.mem_map.mp h5
  have hps : p ∈ scoreSort scored := List.take_subset limit _ hp
  have hsc : p ∈ scored := (mem_scoreSort scored p).mp hps
  have : p.1 ∈ scored.map Prod.fst := List.mem_map.mpr ⟨p, hsc, rfl⟩
  rw [mapScore_ok_map _ _ _ _ _ _ scored hm] at this
  have := List.mem_filter.mp this
  rw [hpc] at this
  exact of_decide_eq_true this.2

/-- C1 witness: a concrete scored-branch call whose only candidate is
unseen; the returned item is not among the reviewed identifiers. -/
theorem c1_scored_branch_excludes_reviewed_witness :
    likedOf oneCandDb.reviews ≠ [] ∧
    contentA.id ∉ oneCandDb.reviews.map (fun r => r.content.id) :=
  ⟨by decide,
    c1_scored_branch_excludes_reviewed simZero oneCandDb 10 [contentA]
      contentA rfl rfl (by decide) (by decide) (by simp)⟩

/-! ### C2 — total, never-throwing contract -/

/-- C2, counterexample: when corpus retrieval fails on a profile with no
review, the service does not degrade to a popularity fallback or an empty
list: it throws (models `throw new Error(...)` after the catch). -/
theorem c2_retrieval_failure_throws_counterexample :
    corpusFailDb.reviews = [] ∧
    getRecommendationsForProfile simZero corpusFailDb 10 =
      .error "Failed to generate recommendations" := by
  constructor <;> decide

/-- C2, amended: the service either returns an ordered list or throws the
wrapped error string; the HTTP controller catches the throw and answers
500 Server Error, so the raw error never reaches the HTTP caller, but no
empty-list degradation exists in the service. -/
theorem c2_error_is_thrown_then_500 (sim : Sim) (db : Db) (limit : Nat) :
    (∃ l, getRecommendationsForProfile sim db limit = .ok l ∧
      getRecommendations sim db true limit = ⟨200, true, l⟩) ∨
    (getRecommendationsForProfile sim db limit =
        .error "Failed to generate recommendations" ∧
      getRecommendations sim db true limit = ⟨500, false, []⟩) := by
  match hb : recommendBody sim db limit with
  | .ok recs =>
    left
    exact ⟨recs, by rw [getRecommendationsForProfile, hb],
      by simp [getRecommendations, getRecommendationsForProfile, hb]⟩
  | .error e =>
    right
    constructor
    · rw [getRecommendationsForProfile, hb]
    · simp [getRecommendations, getRecommendationsForProfile, hb]

/-! ### C3 — watchlist contribution -/

/-- C3, counterexample: the engine ignores the watchlist entirely.  W is on
the watchlist, yet it is returned as a recommendation (not excluded), and
neither its genre tag 27 nor its keyword tag 9 received any affinity
weight. -/
theorem c3_watchlist_ignored_counterexample :
    getRecommendationsForProfile simZero watchDb 10 = .ok [contentW] ∧
    contentW.id ∈ watchDb.myList ∧
    mapGet (buildGenreMap (likedOf watchDb.reviews)) 27 = 0 ∧
    mapGet (buildKeywordMap (likedOf watchDb.reviews)) 9 = 0 := by
  refine ⟨?_, by decide, by decide, by decide⟩
  decide

/-- C3, amended: watchlist entries contribute nothing at all — the result
of the engine does not depend on the myList field of the profile. -/
theorem c3_result_independent_of_watchlist (sim : Sim) (reviews : List Review)
    (corpus : List Content) (rf cf : Bool) (ml ml' : List Nat) (limit : Nat) :
    getRecommendationsForProfile sim ⟨reviews, ml, corpus, rf, cf⟩ limit =
      getRecommendationsForProfile sim ⟨reviews, ml', corpus, rf, cf⟩ limit := rfl

/-! ### C4 — candidate pool -/

/-- C4, counterexample: with the spec scenario (one 5-star review of L,
favorite genres 28 and 18), item B shares no favorite genre, yet it is
scored and even returned first on popularity alone: there is no genre gate
and no type filter. -/
theorem c4_no_genre_gate_counterexample :
    getRecommendationsForProfile simZero gateDb 2 = .ok [contentB, contentA] ∧
    contentB.genres.map Prod.fst = [35] ∧
    (35 : Nat) ∉ (sortedIds (buildGenreMap (likedOf gateDb.reviews))).take 3 := by
  refine ⟨?_, by decide, by decide⟩
  norm_num [getRecommendationsForProfile, recommendBody, likedOf, mapScore, scoreOf,
    simLoop, simLoopFrom, jsTfidfs, jsPlusArray, jsMaxArray, sortedIds, buildGenreMap,
    buildKeywordMap, bumpGenres, bumpKeywords, mapInc, genreBonusOf, keywordBonusOf,
    scoreSort, popSort, List.insertionSort, List.orderedInsert, gateDb, contentL,
    contentA, contentB, contentC, simZero, List.filter, List.range_succ, docTextOf]

/-- C4, amended: in the scored branch the pool that receives a composite
score is exactly the corpus minus the reviewed identifiers — no type
filter and no genre gate exist.  Proved part: when the whole corpus fits
in the limit, membership in the result characterizes the pool. -/
theorem c4_candidate_pool (sim : Sim) (db : Db) (limit : Nat)
    (l : List Content) (c : Content)
    (h1 : db.reviewsFail = false) (h2 : db.corpusFail = false)
    (h3 : likedOf db.reviews ≠ [])
    (h6 : db.corpus.length ≤ limit)
    (h4 : getRecommendationsForProfile sim db limit = .ok l) :
    c ∈ l ↔
      (c ∈ db.corpus ∧ c.id ∉ db.reviews.map (fun r => r.content.id)) := by
  obtain ⟨scored, hm, hl⟩ := scored_branch_shape sim db limit l h1 h2 h3 h4
  subst hl
  have hfst := mapScore_ok_map _ _ _ _ _ _ scored hm
  have hlen : (scoreSort scored).length ≤ limit := by
    rw [length_scoreSort, ← List.length_map scored Prod.fst, hfst]
    exact le_trans (List.length_filter_le _ _) h6
  rw [List.take_of_length_le hlen]
  have hperm := (List.perm_insertionSort
    (fun a b : Content × ℚ => b.2 ≤ a.2) scored).map Prod.fst
  rw [scoreSort, hperm.mem_iff, hfst, List.mem_filter]
  simp

/-- C4 witness: one liked review of L, corpus L and A within the limit; A
is unseen, so it is in the pool and in the result. -/
theorem c4_candidate_pool_witness :
    oneCandDb.corpus.length ≤ 10 ∧
    contentA ∈ ([contentA] : List Content) :=
  ⟨by decide,
    (c4_candidate_pool simZero oneCandDb 10 [contentA] contentA rfl rfl
      (by decide) (by decide) (by decide)).mpr ⟨by decide, by decide⟩⟩

/-! ### C5 — backfill -/

/-- C5, counterexample: with the spec scenario and limit 3 the genre-gated
pool would be A, C (size 2 < 3); the claim predicts scored items first
([A, C]) and B appended by backfill, but the code interleaves B by plain
score and returns [B, A, C]. -/
theorem c5_no_backfill_counterexample :
    getRecommendationsForProfile simZero gateDb 3 =
      .ok [contentB, contentA, contentC] ∧
    (35 : Nat) ∉ (sortedIds (buildGenreMap (likedOf gateDb.reviews))).take 3 ∧
    ([contentB, contentA, contentC] : List Content) ≠
      [contentA, contentC, contentB] := by
  refine ⟨?_, by decide, by decide⟩
  norm_num [getRecommendationsForProfile, recommendBody, likedOf, mapScore, scoreOf,
    simLoop, simLoopFrom, jsTfidfs, jsPlusArray, jsMaxArray, sortedIds, buildGenreMap,
    buildKeywordMap, bumpGenres, bumpKeywords, mapInc, genreBonusOf, keywordBonusOf,
    scoreSort, popSort, List.insertionSort, List.orderedInsert, gateDb, contentL,
    contentA, contentB, contentC, simZero, List.filter, List.range_succ, docTextOf]

/-- C5, amended: there is no backfill step; the scored branch returns the
top limit of all non-reviewed corpus items by composite score, so the
result length is the minimum of limit and the eligible-pool size. -/
theorem c5_no_backfill_length (sim : Sim) (db : Db) (limit : Nat)
    (l : List Content)
    (h1 : db.reviewsFail = false) (h2 : db.corpusFail = false)
    (h3 : likedOf db.reviews ≠ [])
    (h4 : getRecommendationsForProfile sim db limit = .ok l) :
    l.length = min limit
      (db.corpus.filter
        (fun c => decide (c.id ∉ db.reviews.map (fun r => r.content.id)))).length := by
  obtain ⟨scored, hm, hl⟩ := scored_branch_shape sim db limit l h1 h2 h3 h4
  subst hl
  have hfst := mapScore_ok_map _ _ _ _ _ _ scored hm
  rw [List.length_map, List.length_take, length_scoreSort,
    ← List.length_map scored Prod.fst, hfst]

/-- C5 witness: one liked review, one unseen candidate, limit 10: the
result has min 10 1 = 1 item. -/
theorem c5_no_backfill_length_witness :
    ([contentA] : List Content).length = min 10
      (oneCandDb.corpus.filter
        (fun c => decide (c.id ∉ oneCandDb.reviews.map (fun r => r.content.id)))).length :=
  c5_no_backfill_length simZero oneCandDb 10 [contentA] rfl rfl
    (by decide) (by decide)

/-! ### C6 — cold start -/

/-- C6, counterexample: two items of equal popularity stored in descending
identifier order are returned in stored order, not in ascending identifier
order as the claim states; the spec-modelled cold start differs. -/
theorem c6_tiebreak_counterexample :
    getRecommendationsForProfile simZero tieDb 10 = .ok [tieY, tieX] ∧
    specColdStart tieDb.corpus 10 = [tieX, tieY] ∧
    ([tieY, tieX] : List Content) ≠ [tieX, tieY] := by
  refine ⟨by decide, by decide, by decide⟩

/-- C6, amended: with zero reviews the result is the corpus sorted by
popularity descending (equal popularity keeps stored order; no identifier
tie-break, no type filter) truncated to limit. -/
theorem c6_cold_start_popularity (sim : Sim) (db : Db) (limit : Nat)
    (h1 : db.reviewsFail = false) (h2 : db.corpusFail = false)
    (h3 : db.reviews = []) :
    getRecommendationsForProfile sim db limit =
      .ok ((popSort db.corpus).take limit) ∧
    List.Sorted (fun a b : Content => b.popularity ≤ a.popularity)
      ((popSort db.corpus).take limit) ∧
    ((popSort db.corpus).take limit).length = min limit db.corpus.length ∧
    ∀ c ∈ (popSort db.corpus).take limit, c ∈ db.corpus := by
  refine ⟨cold_branch_shape sim db limit h1 h2 h3, ?_, ?_, ?_⟩
  · have hs : List.Sorted (fun a b : Content => b.popularity ≤ a.popularity)
        (popSort db.corpus) := by
      haveI : IsTotal Content (fun a b : Content => b.popularity ≤ a.popularity) :=
        ⟨fun a b => le_total _ _⟩
      haveI : IsTrans Content (fun a b : Content => b.popularity ≤ a.popularity) :=
        ⟨fun _ _ _ hab hbc => le_trans hbc hab⟩
      exact List.sorted_insertionSort _ _
    exact List.Pairwise.sublist (List.take_sublist _ _) hs
  · rw [List.length_take, length_popSort]
  · intro c hc
    exact (mem_popSort db.corpus c).mp (List.take_subset _ _ hc)

/-- C6 witness: a two-item corpus of distinct popularity with no review. -/
theorem c6_cold_start_popularity_witness :
    oneCandDb.corpus = [contentL, contentA] ∧
    getRecommendationsForProfile simZero
      ⟨[], [], [contentL, contentA], false, false⟩ 1 = .ok [contentL] :=
  ⟨by decide, by
    have h := (c6_cold_start_popularity simZero
      ⟨[], [], [contentL, contentA], false, false⟩ 1 rfl rfl rfl).1
    rw [h]
    decide⟩

/-! ### C7 — composite score formula -/

/-- C7: the scored branch never reaches the claimed formula once there are
two or more liked items: the source passes the liked-item index where the
natural package expects a callback (`tfidf.tfidfs(docText, index)`), so
scoring the first candidate raises TypeError at index 1 and the call
rethrows the wrapped error instead of returning scored candidates. -/
theorem c7_two_liked_reviews_throw_code_bug :
    getRecommendationsForProfile simZero twoLikedDb 10 =
      .error "Failed to generate recommendations" ∧
    recommendBody simZero twoLikedDb 10 = .error .typeError := by
  refine ⟨by decide, by decide⟩

/-! ### C9 — monotonicity under an added 5-star review -/

/-- C9: adding a 5-star review of a new genre (878) does raise that genre
weight from 0 to 1, but the claimed candidate rescoring never happens: the
baseline call succeeds, while the call with two liked reviews throws
(tfidfs callback misuse), so the scores of candidates sharing the genre
are not increased — they are not computed at all. -/
theorem c9_added_review_throws_code_bug :
    getRecommendationsForProfile simZero monoBaseDb 10 = .ok [contentA] ∧
    mapGet (buildGenreMap (likedOf monoBaseDb.reviews)) 878 = 0 ∧
    mapGet (buildGenreMap (likedOf monoAddDb.reviews)) 878 = 1 ∧
    getRecommendationsForProfile simZero monoAddDb 10 =
      .error "Failed to generate recommendations" := by
  refine ⟨by decide, by decide, by decide, by decide⟩

/-! ### C10 — absent keywords field -/

/-- C10, counterexample: an input whose liked and candidate items all lack
the keywords field on which the call nevertheless fails — with two liked
reviews the similarity loop throws (tfidfs callback misuse) for any
keywords shape, so "never fails" does not hold as stated. -/
theorem c10_two_liked_throw_counterexample :
    contentNoKwL.keywords = none ∧ contentNoKwC.keywords = none ∧
    getRecommendationsForProfile simZero noKw2Db 10 =
      .error "Failed to generate recommendations" := by
  refine ⟨rfl, rfl, by decide⟩

/-- C10, amended: a liked item or candidate with no keywords field is handled by the
`if (content.keywords)` guards: the call still returns a list (with one
liked item, so that the similarity loop terminates normally), the liked
item contributes no keyword weight, its document text carries no keyword
names, the candidate keyword bonus is 0, and the candidate score keeps all
remaining terms including the genre bonus. -/
theorem c10_missing_keywords_safe (sim : Sim) (db : Db) (limit : Nat)
    (c0 c : Content)
    (h1 : db.reviewsFail = false) (h2 : db.corpusFail = false)
    (h3 : likedOf db.reviews = [c0])
    (h4 : c0.keywords = none) (h5 : c.keywords = none) :
    (∃ l, getRecommendationsForProfile sim db limit = .ok l) ∧
    buildKeywordMap [c0] = [] ∧
    docTextOf c0 =
      c0.genres.foldl (fun s g => s ++ " " ++ g.2) (c0.title ++ " " ++ c0.overview) ∧
    (∀ sk, keywordBonusOf sk c = 0) ∧
    (∀ sg sk, scoreOf sim [docTextOf c0] 1 sg sk c =
      .ok (c, jsPlusArray 0 [sim [docTextOf c0] (docTextOf c) 0] / ((1 : Nat) : ℚ) +
        jsMaxArray 0 [sim [docTextOf c0] (docTextOf c) 0] +
        genreBonusOf sg c + c.popularity / 20)) := by
  have hrev : ¬ db.reviews.length = 0 := by
    intro h0
    rw [List.length_eq_zero.mp h0] at h3
    simp [likedOf] at h3
  have hl : ¬ (likedOf db.reviews).length = 0 := by rw [h3]; simp
  refine ⟨?_, ?_, ?_, ?_, ?_⟩
  · match hb : recommendBody sim db limit with
    | .ok recs => exact ⟨recs, by rw [getRecommendationsForProfile, hb]⟩
    | .error e =>
      exfalso
      rw [recommendBody] at hb
      simp only [h1, h2, hrev, Bool.false_eq_true, if_false, ite_false] at hb
      rw [if_neg hl, h3] at hb
      simp only [List.map_cons, List.map_nil, List.length_cons,
        List.length_nil, Nat.zero_add] at hb
      obtain ⟨ps, hps⟩ := mapScore_one_ok sim [docTextOf c0]
        (sortedIds (buildGenreMap [c0])) (sortedIds (buildKeywordMap [c0]))
        (db.corpus.filter
          (fun c => decide (c.id ∉ db.reviews.map (fun r => r.content.id))))
      rw [hps] at hb
      exact absurd hb (by simp)
  · simp [buildKeywordMap, bumpKeywords, h4]
  · simp [docTextOf, h4]
  · intro sk
    simp [keywordBonusOf, h5]
  · intro sg sk
    rw [scoreOf_one]
    simp [keywordBonusOf, h5, List.range_succ]

/-- C10 witness: a concrete call with one keywordless liked item and one
keywordless candidate. -/
theorem c10_missing_keywords_safe_witness :
    (∃ l, getRecommendationsForProfile simZero noKwDb 10 = .ok l) ∧
    buildKeywordMap [contentNoKwL] = [] ∧
    (∀ sk, keywordBonusOf sk contentNoKwC = 0) := by
  have h := c10_missing_keywords_safe simZero noKwDb 10 contentNoKwL
    contentNoKwC rfl rfl (by decide) rfl rfl
  exact ⟨h.1, h.2.1, h.2.2.2.1⟩

/-! ### C8 — per-review affinity accumulation -/

/-- C8: with per-content tag ids free of duplicates (tag sets are unique by
id), the weight of a genre id g in the likedGenres map is exactly the
number of reviews rated ≥ 3 whose content carries g; same for keyword ids
in likedKeywords; reviews rated < 3 contribute to neither map, while every
review — whatever its rating — puts its content identifier into the
reviewedContentIds exclusion list. -/
theorem c8_review_affinity (reviews : List Review) (g k : Nat)
    (hg : ∀ r ∈ reviews, (r.content.genres.map Prod.fst).Nodup)
    (hk : ∀ r ∈ reviews, ((r.content.keywords.getD []).map Prod.fst).Nodup) :
    mapGet (buildGenreMap (likedOf reviews)) g =
      (reviews.filter (fun r => decide ((3 : ℚ) ≤ r.rating) &&
        decide (g ∈ r.content.genres.map Prod.fst))).length ∧
    mapGet (buildKeywordMap (likedOf reviews)) k =
      (reviews.filter (fun r => decide ((3 : ℚ) ≤ r.rating) &&
        decide (k ∈ (r.content.keywords.getD []).map Prod.fst))).length ∧
    ∀ r ∈ reviews, r.content.id ∈ reviews.map (fun r => r.content.id) := by
  refine ⟨?_, ?_, ?_⟩
  · have hgl : ∀ c ∈ likedOf reviews, (c.genres.map Prod.fst).Nodup := by
      intro c hc
      rw [likedOf] at hc
      obtain ⟨r, hr, hrc⟩ := List.mem_map.mp hc
      exact hrc ▸ hg r (List.mem_filter.mp hr).1
    rw [buildGenreMap_get _ g hgl, likedOf, List.filter_map, List.length_map,
      List.filter_filter]
    congr 1
    apply List.filter_congr
    intro r _
    exact Bool.and_comm _ _
  · have hkl : ∀ c ∈ likedOf reviews, ((c.keywords.getD []).map Prod.fst).Nodup := by
      intro c hc
      rw [likedOf] at hc
      obtain ⟨r, hr, hrc⟩ := List.mem_map.mp hc
      exact hrc ▸ hk r (List.mem_filter.mp hr).1
    rw [buildKeywordMap_get _ k hkl, likedOf, List.filter_map, List.length_map,
      List.filter_filter]
    congr 1
    apply List.filter_congr
    intro r _
    exact Bool.and_comm _ _
  · intro r hr
    exact List.mem_map.mpr ⟨r, hr, rfl⟩

/-- A concrete review list for the C8 witness: L liked with rating 5, A
rejected with rating 2. -/
def c8Reviews : List Review := [⟨contentL, 5⟩, ⟨contentA, 2⟩]

/-- C8 witness: on the concrete review list, genre 28 and keyword 1 each
weigh 1 (only the liked review of L counts; the rating-2 review of A,
whose content also carries them, does not). -/
theorem c8_review_affinity_witness :
    mapGet (buildGenreMap (likedOf c8Reviews)) 28 =
      (c8Reviews.filter (fun r => decide ((3 : ℚ) ≤ r.rating) &&
        decide (28 ∈ r.content.genres.map Prod.fst))).length ∧
    mapGet (buildKeywordMap (likedOf c8Reviews)) 1 =
      (c8Reviews.filter (fun r => decide ((3 : ℚ) ≤ r.rating) &&
        decide (1 ∈ (r.content.keywords.getD []).map Prod.fst))).length ∧
    mapGet (buildGenreMap (likedOf c8Reviews)) 28 = 1 := by
  have h := c8_review_affinity c8Reviews 28 1 (by decide) (by decide)
  exact ⟨h.1, h.2.1, by decide⟩

end NetflixRec
